import Mathlib

/-!
Shallow embedding of the refresh-capable `AuthProvider` from
`src/lib/auth/AuthProvider.tsx` (the session manager of the repository).

The provider keeps two React state cells,
`tokens : TokensData | null | undefined` and
`currentUser : UserData | null | undefined`, and exposes the operations
`login`, `logout`, together with the internal routines `refreshToken`,
`scheduleTokenRefresh`, `loadUserInfo` and `loadInitialTokens`.

JavaScript's three-valued optionality (`undefined` / `null` / value) is
modelled by the inductive `JsVal`.  Network calls go through the injected
`fetcher`; each call site is modelled by passing the response outcome as an
explicit argument of type `FetchResult`.  Every operation returns the new
exposed state, the list of `onAuthChange` observer invocations it performs
(in order, `some tokens` for a call with a token pair, `none` for a call
with `null`), and its JS-level result (resolved value or thrown error).
-/

/-- JavaScript optional value: `undefined`, `null`, or a defined value. -/
inductive JsVal (α : Type) where
  | undefined : JsVal α
  | null : JsVal α
  | defined (a : α) : JsVal α
deriving DecidableEq, Repr

namespace JsVal

/-- Whether the value is a defined (non-null, non-undefined) value. -/
def isDefined : JsVal α → Bool
  | .defined _ => true
  | _ => false

/-- Whether the value is exactly `null`. -/
def isNull : JsVal α → Bool
  | .null => true
  | _ => false

/-- JS truthiness for an object-typed variable: `undefined` and `null`
are falsy, any object is truthy. -/
def truthy : JsVal α → Bool
  | .defined _ => true
  | _ => false

end JsVal

/-- Token pair held by the provider (`TokensData` in `types.ts`):
`{ access, accessExpiresAt, refresh, refreshExpiresAt }`. -/
structure TokensData where
  access : String
  accessExpiresAt : String
  refresh : String
  refreshExpiresAt : String
deriving DecidableEq, Repr

/-- User identity held by the provider (`UserData`). -/
structure UserData where
  userId : String
  name : String
  email : String
deriving DecidableEq, Repr

/-- Raw body of a successful `POST /v3/auth/login` or `POST /v3/auth/refresh`
response, as read by the provider. -/
structure TokensRaw where
  accessToken : String
  accessTokenExpiresAt : String
  refreshToken : String
  refreshTokenExpiresAt : String
deriving DecidableEq, Repr

/-- The field-by-field repackaging `newTokens` that `login` and
`refreshToken` perform on a successful backend response. -/
def toTokensData (r : TokensRaw) : TokensData :=
  { access := r.accessToken
    accessExpiresAt := r.accessTokenExpiresAt
    refresh := r.refreshToken
    refreshExpiresAt := r.refreshTokenExpiresAt }

/-- Raw body of a successful `GET /v1/users/me` response. -/
structure UserRaw where
  userId : String
  displayName : String
  email : Option String
deriving DecidableEq, Repr

/-- Outcome of one `fetcher` call: a success response with body `data`,
a non-ok response carrying `data.message`, or a rejected promise. -/
inductive FetchResult (α : Type) where
  | ok (data : α) : FetchResult α
  | notOk (message : String) : FetchResult α
  | thrown : FetchResult α
deriving DecidableEq, Repr

/-- Whether a fetch outcome is a success response (`response.ok`). -/
def FetchResult.isOk : FetchResult α → Bool
  | .ok _ => true
  | _ => false

/-- The exposed auth state: the two React state cells of the provider.
Both start as `undefined` (the unresolved state). -/
structure AuthState where
  tokens : JsVal TokensData
  currentUser : JsVal UserData
deriving DecidableEq, Repr

/-- The construction-time state: both cells `undefined`. -/
def authInitialState : AuthState :=
  { tokens := .undefined, currentUser := .undefined }

/-- `clearAuthState`: `setTokens(null); setCurrentUser(null)`. -/
def clearAuthState : AuthState :=
  { tokens := .null, currentUser := .null }

/-- Errors thrown by the provider's operations (each a `new Error(...)`
in the source, identified here by its throw site). -/
inductive AuthError where
  /-- `login`: "User is already logged in" (thrown when `currentUser !== null`). -/
  | alreadyLoggedIn : AuthError
  /-- `login`: `new Error(loginResponse.data.message)` on a non-ok response. -/
  | backendRejected (message : String) : AuthError
  /-- `login`: "Error fetching user info" when `loadUserInfo` returns `null`. -/
  | identityFetchFailed : AuthError
  /-- `login`: the rejection of the `fetcher` promise itself, re-thrown. -/
  | fetchThrown : AuthError
  /-- `logout`: "No user is logged in" (thrown when `currentUser === null`). -/
  | notLoggedIn : AuthError
deriving DecidableEq, Repr

/-- Result of `login` or `logout`: final exposed state, the `onAuthChange`
calls performed, and the promise outcome. -/
structure OpResult where
  state : AuthState
  observerCalls : List (Option TokensData)
  result : Except AuthError Unit
deriving Repr

/-- `loadUserInfo(accessToken)` from the source: wraps a
`GET /v1/users/me` fetch; returns `null` when the response is not ok or
the fetch throws, and otherwise the mapped
`{ userId, name := displayName, email := email ?? '' }`. -/
def loadUserInfo (resp : FetchResult UserRaw) : Option UserData :=
  match resp with
  | .ok d => some { userId := d.userId, name := d.displayName, email := d.email.getD "" }
  | .notOk _ => none
  | .thrown => none

/-- `login(credentials)` from the source, as a function of the current state
and the outcomes of the two network calls it may make.  Verbatim structure:

```
try {
  if (currentUser !== null) throw "User is already logged in"
  loginResponse = await fetcher('POST /v3/auth/login', ...)
  if (!loginResponse.ok) throw new Error(loginResponse.data.message)
  newTokens = {...}
  userData = await loadUserInfo(newTokens.access)
  if (!userData) throw "Error fetching user info"
  setTokens(newTokens); setCurrentUser(userData)
  if (onAuthChange) onAuthChange(newTokens)
} catch (error) { clearAuthState(); throw error }
```

Every thrown error is caught, the state cleared, and the error re-thrown. -/
def login (st : AuthState) (loginResp : FetchResult TokensRaw)
    (userResp : FetchResult UserRaw) : OpResult :=
  match st.currentUser with
  | .null =>
    match loginResp with
    | .ok raw =>
      let newTokens := toTokensData raw
      match loadUserInfo userResp with
      | some userData =>
        { state := { tokens := .defined newTokens, currentUser := .defined userData }
          observerCalls := [some newTokens]
          result := .ok () }
      | none =>
        { state := clearAuthState, observerCalls := [], result := .error .identityFetchFailed }
    | .notOk msg =>
      { state := clearAuthState, observerCalls := [], result := .error (.backendRejected msg) }
    | .thrown =>
      { state := clearAuthState, observerCalls := [], result := .error .fetchThrown }
  | _ =>
    -- `currentUser !== null` holds for both `undefined` and a defined user;
    -- the throw lands in the catch block, which calls `clearAuthState()`.
    { state := clearAuthState, observerCalls := [], result := .error .alreadyLoggedIn }

/-- `logout()` from the source:

```
try {
  if (currentUser === null) throw "No user is logged in"
  clearAuthState()
  if (onAuthChange) onAuthChange(null)
  await Promise.resolve()
} catch (error) { console.error(...); throw error }
```

The catch block only logs and re-throws: on the precondition throw the
state is untouched. -/
def logout (st : AuthState) : OpResult :=
  match st.currentUser with
  | .null => { state := st, observerCalls := [], result := .error .notLoggedIn }
  | _ => { state := clearAuthState, observerCalls := [none], result := .ok () }

/-- Result of `refreshToken`: final state, observer calls, whether the
backend `POST /v3/auth/refresh` call was made at all, and the returned
boolean. -/
structure RefreshResult where
  state : AuthState
  observerCalls : List (Option TokensData)
  backendCalled : Bool
  returned : Bool
deriving DecidableEq, Repr

/-- Whether `tokens?.refresh` is truthy: tokens defined and the refresh
field a non-empty string. -/
def hasRefreshToken (tokens : JsVal TokensData) : Bool :=
  match tokens with
  | .defined t => !(t.refresh = "")
  | _ => false

/-- `refreshToken` from the source, as a function of the current state and
the outcome of the refresh fetch:

```
if (!tokens?.refresh) return false
try {
  refreshResponse = await fetcher('POST /v3/auth/refresh', ...)
  if (!refreshResponse.ok) { clearAuthState(); onAuthChange?.(null); return false }
  newTokens = {...}
  setTokens(newTokens)
  onAuthChange?.(newTokens)
  return true
} catch { clearAuthState(); onAuthChange?.(null); return false }
```

On success only `tokens` is replaced; `currentUser` is left as it was. -/
def refreshToken (st : AuthState) (resp : FetchResult TokensRaw) : RefreshResult :=
  if hasRefreshToken st.tokens then
    match resp with
    | .ok raw =>
      let newTokens := toTokensData raw
      { state := { st with tokens := .defined newTokens }
        observerCalls := [some newTokens]
        backendCalled := true
        returned := true }
    | .notOk _ =>
      { state := clearAuthState, observerCalls := [none], backendCalled := true, returned := false }
    | .thrown =>
      { state := clearAuthState, observerCalls := [none], backendCalled := true, returned := false }
  else
    { state := st, observerCalls := [], backendCalled := false, returned := false }

/-- The `initialTokens` prop as consumed by `loadInitialTokens`:
absent (`undefined`/`null` prop), a value resolving to tokens or to
`null`/`undefined`, or a rejecting promise. -/
inductive InitialTokens where
  | absent : InitialTokens
  | resolvesTo (t : Option TokensData) : InitialTokens
  | rejects : InitialTokens
deriving DecidableEq, Repr

/-- Result of `loadInitialTokens`: the ordered sequence of exposed states
after each state update (each element is observable by consumers, because
a network `await` separates consecutive updates), plus the `onAuthChange`
calls performed (the source routine contains no `onAuthChange` call site,
so this list is `[]` on every path). -/
structure InitResult where
  trace : List AuthState
  observerCalls : List (Option TokensData)
deriving DecidableEq, Repr

/-- `loadInitialTokens` from the source:

```
try {
  if (!initialTokens) { clearAuthState(); return }
  resolvedTokens = await Promise.resolve(initialTokens)
  if (!resolvedTokens) { clearAuthState(); return }
  setTokens(resolvedTokens)                    -- exposed before the next await
  userData = await loadUserInfo(resolvedTokens.access)
  if (!userData) { clearAuthState(); return }
  setCurrentUser(userData)
} catch (error) { console.error(...); clearAuthState() }
```

Note `setTokens(resolvedTokens)` commits before `await loadUserInfo(...)`
suspends, so consumers observe the state with tokens set while
`currentUser` is still `undefined`. -/
def loadInitialTokens (st : AuthState) (init : InitialTokens)
    (userResp : FetchResult UserRaw) : InitResult :=
  match init with
  | .absent => { trace := [clearAuthState], observerCalls := [] }
  | .rejects => { trace := [clearAuthState], observerCalls := [] }
  | .resolvesTo none => { trace := [clearAuthState], observerCalls := [] }
  | .resolvesTo (some resolvedTokens) =>
    let mid : AuthState := { st with tokens := .defined resolvedTokens }
    match loadUserInfo userResp with
    | some userData =>
      { trace := [mid, { mid with currentUser := .defined userData }], observerCalls := [] }
    | none =>
      { trace := [mid, clearAuthState], observerCalls := [] }

/-! ## Refresh scheduling (`scheduleTokenRefresh`) -/

/-- `REFRESH_THRESHOLD_MS = 5 * 60 * 1000`. -/
def REFRESH_THRESHOLD_MS : Int := 5 * 60 * 1000

/-- `MAX_TIMEOUT = 2147483647`, the maximum safe `setTimeout` delay. -/
def MAX_TIMEOUT : Int := 2147483647

/-- What one run of `scheduleTokenRefresh` does after clearing the
previously armed timer. -/
inductive ScheduleAction where
  /-- Neither an immediate refresh nor a new timer. -/
  | noAction : ScheduleAction
  /-- `refreshToken()` invoked directly (the `timeUntilExpiry <= 0` branch). -/
  | immediateRefresh : ScheduleAction
  /-- `setTimeout(refreshToken, delay)` armed. -/
  | armTimer (delay : Int) : ScheduleAction
deriving DecidableEq, Repr

/-- `scheduleTokenRefresh` from the source, as a function of the state of
`tokens`, the wall clock `now`, and the previously armed timer (its pending
delay handle, if any).  `dateParse` abstracts the host
`new Date(s).getTime()`: `none` models `NaN` (an unparseable timestamp);
in the source, `NaN <= 0` and `NaN < MAX_TIMEOUT` are both false, so a
`NaN` expiry falls through both branches.  Returns the timer cell after
the run (`none` when no timer is left armed, `some delay` for a freshly
armed timer) and the action taken.

```
if (refreshTimerRef.current) { clearTimeout(...); refreshTimerRef.current = null }
if (!tokens?.accessExpiresAt) return
expiresAt = new Date(tokens.accessExpiresAt).getTime()
timeUntilExpiry = expiresAt - Date.now()
if (timeUntilExpiry <= 0) refreshToken()
else if (timeUntilExpiry < MAX_TIMEOUT)
  refreshTimerRef.current = setTimeout(refreshToken, Math.max(0, timeUntilExpiry - REFRESH_THRESHOLD_MS))
``` -/
def scheduleTokenRefresh (dateParse : String → Option Int) (tokens : JsVal TokensData)
    (now : Int) (prevTimer : Option Int) : Option Int × ScheduleAction :=
  -- the previous timer is unconditionally cleared first; `prevTimer` never
  -- survives into the result
  match tokens with
  | .defined t =>
    if t.accessExpiresAt = "" then (none, .noAction)
    else
      match dateParse t.accessExpiresAt with
      | none => (none, .noAction)
      | some expiresAt =>
        let timeUntilExpiry := expiresAt - now
        if timeUntilExpiry ≤ 0 then (none, .immediateRefresh)
        else if timeUntilExpiry < MAX_TIMEOUT then
          (some (max 0 (timeUntilExpiry - REFRESH_THRESHOLD_MS)),
            .armTimer (max 0 (timeUntilExpiry - REFRESH_THRESHOLD_MS)))
        else (none, .noAction)
  | _ => (none, .noAction)

/-- The `useEffect` on `[tokens]`: `if (tokens) scheduleTokenRefresh()`.
Whether a state change to `tokens` triggers the scheduler at all. -/
def tokensEffectSchedules (tokens : JsVal TokensData) : Bool :=
  tokens.truthy

/-! ## Consistency invariant -/

/-- The §3 invariant on an exposed state: tokens and user are defined
together and `null` together (so `Authenticated` has both, `Unauthenticated`
has neither, `Unresolved` has both `undefined`). -/
def consistent (st : AuthState) : Prop :=
  st.tokens.isDefined = st.currentUser.isDefined ∧ st.tokens.isNull = st.currentUser.isNull

instance (st : AuthState) : Decidable (consistent st) := by
  unfold consistent; infer_instance

/-! ## Sample concrete values used by witnesses and counterexamples -/

/-- A concrete token pair. -/
def sampleTokens : TokensData :=
  { access := "acc", accessExpiresAt := "2124-01-01T00:00Z"
    refresh := "ref", refreshExpiresAt := "2124-01-01T00:00Z" }

/-- A concrete raw backend token response. -/
def sampleTokensRaw : TokensRaw :=
  { accessToken := "acc2", accessTokenExpiresAt := "2124-06-01T00:00Z"
    refreshToken := "ref2", refreshTokenExpiresAt := "2124-06-01T00:00Z" }

/-- A concrete raw identity response. -/
def sampleUserRaw : UserRaw :=
  { userId := "u1", displayName := "Alice", email := some "alice@playtomic.io" }

/-- A concrete user. -/
def sampleUser : UserData :=
  { userId := "u1", name := "Alice", email := "alice@playtomic.io" }

/-- A concrete authenticated state. -/
def sampleAuthedState : AuthState :=
  { tokens := .defined sampleTokens, currentUser := .defined sampleUser }

/-- A concrete stand-in for the host date parser that reads every
timestamp as the instant 1000 (ms). -/
def parseAt1000 : String → Option Int := fun _ => some 1000

/-- A concrete parser resolving every timestamp far beyond the maximum
`setTimeout` delay. -/
def parseFarFuture : String → Option Int := fun _ => some 2147783657

/-- A concrete parser on which every timestamp is unparseable (`NaN`). -/
def parseNaN : String → Option Int := fun _ => none

/-! ## C1: atomicity of the exposed token/user pair -/

/-- Claim C1 (corrected form): every operation started from a consistent
state ends in a consistent state — `login`, `logout` and `refreshToken`
preserve the §3 invariant, and `loadInitialTokens` always settles in a
consistent final state.  (The claim's further assertion that no
intermediate state is observable during initial-token resolution is false;
see the counterexample.) -/
theorem auth_consistency_amended :
    (∀ (st : AuthState) (lr : FetchResult TokensRaw) (ur : FetchResult UserRaw),
      consistent st → consistent (login st lr ur).state) ∧
    (∀ st : AuthState, consistent st → consistent (logout st).state) ∧
    (∀ (st : AuthState) (r : FetchResult TokensRaw),
      consistent st → consistent (refreshToken st r).state) ∧
    (∀ (st : AuthState) (init : InitialTokens) (ur : FetchResult UserRaw)
      (last : AuthState), (loadInitialTokens st init ur).trace.getLast? = some last →
      consistent last) := by
  refine ⟨?_, ?_, ?_, ?_⟩
  · intro st lr ur _
    rcases st with ⟨tk, cu⟩
    cases cu <;> cases lr <;> cases hU : loadUserInfo ur <;>
      simp [login, hU, clearAuthState, consistent, JsVal.isDefined, JsVal.isNull]
  · intro st hc
    rcases st with ⟨tk, cu⟩
    cases cu <;>
      simp_all [logout, clearAuthState, consistent, JsVal.isDefined, JsVal.isNull]
  · intro st r hc
    rcases st with ⟨tk, cu⟩
    cases htk : hasRefreshToken tk
    · simpa [refreshToken, htk] using hc
    · cases tk with
      | undefined => simp [hasRefreshToken] at htk
      | null => simp [hasRefreshToken] at htk
      | defined t =>
        obtain ⟨hD, hN⟩ := hc
        cases r <;>
          simp_all [refreshToken, htk, clearAuthState, consistent,
            JsVal.isDefined, JsVal.isNull]
  · intro st init ur last hlast
    rcases init with _ | t | _
    · simp [loadInitialTokens] at hlast
      simp [← hlast, clearAuthState, consistent, JsVal.isDefined, JsVal.isNull]
    · rcases t with _ | t
      · simp [loadInitialTokens] at hlast
        simp [← hlast, clearAuthState, consistent, JsVal.isDefined, JsVal.isNull]
      · cases hU : loadUserInfo ur <;>
          simp [loadInitialTokens, hU] at hlast <;>
          simp [← hlast, clearAuthState, consistent, JsVal.isDefined, JsVal.isNull]
    · simp [loadInitialTokens] at hlast
      simp [← hlast, clearAuthState, consistent, JsVal.isDefined, JsVal.isNull]

/-- Witness for `auth_consistency_amended` at concrete inputs. -/
theorem auth_consistency_amended_witness :
    consistent clearAuthState ∧
    consistent (login clearAuthState (.ok sampleTokensRaw) (.ok sampleUserRaw)).state :=
  ⟨by decide,
    auth_consistency_amended.1 clearAuthState (.ok sampleTokensRaw) (.ok sampleUserRaw)
      (by decide)⟩

/-- Claim C1 counterexample: starting initial-token resolution from the
construction-time state with tokens that resolve but whose identity fetch
returns a non-ok response, the first exposed state of the trace holds
defined tokens with a still-`undefined` user — an observable intermediate
state violating the atomicity invariant. -/
theorem auth_consistency_counterexample :
    (loadInitialTokens authInitialState (.resolvesTo (some sampleTokens)) (.notOk "401")).trace
      = [{ tokens := .defined sampleTokens, currentUser := .undefined }, clearAuthState] ∧
    ¬ consistent { tokens := .defined sampleTokens, currentUser := .undefined } :=
  ⟨rfl, by decide⟩

/-! ## C2: precondition violations -/

/-- Claim C2 counterexample: calling `login` while already authenticated
does report an error, but the exposed state is NOT unchanged — the catch
block runs `clearAuthState()`, resetting tokens and user to `null`. -/
theorem precondition_violation_counterexample :
    (login sampleAuthedState (.ok sampleTokensRaw) (.ok sampleUserRaw)).state
        = clearAuthState ∧
    clearAuthState ≠ sampleAuthedState ∧
    (login sampleAuthedState (.ok sampleTokensRaw) (.ok sampleUserRaw)).result
        = .error .alreadyLoggedIn :=
  ⟨rfl, by decide, rfl⟩

/-- Claim C2 (corrected form): a `logout` precondition violation
(`currentUser === null`) reports `NotAuthenticatedError` and leaves the
state exactly unchanged; a `login` precondition violation (already
authenticated) reports `AlreadyAuthenticatedError` but clears the state to
`Unauthenticated` rather than leaving it unchanged. -/
theorem precondition_violation_amended :
    (∀ st : AuthState, st.currentUser = .null →
      logout st = { state := st, observerCalls := [], result := .error .notLoggedIn }) ∧
    (∀ (st : AuthState) (u : UserData) (lr : FetchResult TokensRaw)
      (ur : FetchResult UserRaw), st.currentUser = .defined u →
      login st lr ur
        = { state := clearAuthState, observerCalls := [], result := .error .alreadyLoggedIn }) := by
  constructor
  · intro st h
    simp [logout, h]
  · intro st u lr ur h
    simp [login, h]

/-- Witness for `precondition_violation_amended` at concrete inputs. -/
theorem precondition_violation_amended_witness :
    logout clearAuthState
      = { state := clearAuthState, observerCalls := [], result := .error .notLoggedIn } ∧
    login sampleAuthedState (.ok sampleTokensRaw) (.ok sampleUserRaw)
      = { state := clearAuthState, observerCalls := [], result := .error .alreadyLoggedIn } :=
  ⟨precondition_violation_amended.1 clearAuthState rfl,
   precondition_violation_amended.2 sampleAuthedState sampleUser
     (.ok sampleTokensRaw) (.ok sampleUserRaw) rfl⟩

/-! ## C3: logout precondition -/

/-- Claim C3 counterexample: in the initial `Unresolved` state the current
user is `undefined`, not `null`, so the `currentUser === null` check does
not fire — `logout()` succeeds, clears the state and invokes the observer
with `null`, although the state was not `Authenticated`. -/
theorem logout_unresolved_counterexample :
    authInitialState.currentUser.isDefined = false ∧
    (logout authInitialState).result = .ok () ∧
    (logout authInitialState).state = clearAuthState ∧
    (logout authInitialState).observerCalls = [none] :=
  ⟨rfl, rfl, rfl, rfl⟩

/-- Claim C3 (corrected form): `logout()` fails with `NotAuthenticatedError`
exactly when `currentUser` is `null` (the `Unauthenticated` state), leaving
the state unchanged; in every other state — `Authenticated` but also the
initial `Unresolved` state — it succeeds, clears the state to
`Unauthenticated` and invokes the observer with a null payload. -/
theorem logout_precondition_amended :
    (∀ st : AuthState, st.currentUser = .null →
      logout st = { state := st, observerCalls := [], result := .error .notLoggedIn }) ∧
    (∀ st : AuthState, st.currentUser ≠ .null →
      logout st = { state := clearAuthState, observerCalls := [none], result := .ok () }) := by
  constructor
  · intro st h
    simp [logout, h]
  · intro st h
    rcases st with ⟨tk, cu⟩
    cases cu <;> simp_all [logout]

/-- Witness for `logout_precondition_amended` at concrete inputs. -/
theorem logout_precondition_amended_witness :
    logout clearAuthState
      = { state := clearAuthState, observerCalls := [], result := .error .notLoggedIn } ∧
    logout sampleAuthedState
      = { state := clearAuthState, observerCalls := [none], result := .ok () } :=
  ⟨logout_precondition_amended.1 clearAuthState rfl,
   logout_precondition_amended.2 sampleAuthedState (by simp [sampleAuthedState])⟩

/-! ## C4: observer invocation discipline -/

/-- Claim C4 counterexample: when the identity fetch fails during `login`,
the observer is invoked zero times, not exactly once with `null` — the
failure path runs `clearAuthState()` and re-throws without any
`onAuthChange` call. -/
theorem observer_identity_failure_counterexample :
    (login clearAuthState (.ok sampleTokensRaw) (.notOk "401")).observerCalls = [] ∧
    (login clearAuthState (.ok sampleTokensRaw) (.notOk "401")).result
      = .error .identityFetchFailed :=
  ⟨rfl, rfl⟩

/-- Claim C4 (corrected form): login success, logout (from any state with
`currentUser ≠ null`, including `Unresolved`), refresh success and refresh
failure each invoke the observer exactly once — with the new token pair on
success and `null` on failure — while identity-fetch failure during login
and the entire initial-token resolution invoke it zero times. -/
theorem observer_calls_amended :
    (∀ (st : AuthState) (raw : TokensRaw) (ur : FetchResult UserRaw) (u : UserData),
      st.currentUser = .null → loadUserInfo ur = some u →
      (login st (.ok raw) ur).observerCalls = [some (toTokensData raw)]) ∧
    (∀ st : AuthState, st.currentUser ≠ .null → (logout st).observerCalls = [none]) ∧
    (∀ (st : AuthState) (raw : TokensRaw), hasRefreshToken st.tokens = true →
      (refreshToken st (.ok raw)).observerCalls = [some (toTokensData raw)]) ∧
    (∀ (st : AuthState) (msg : String), hasRefreshToken st.tokens = true →
      (refreshToken st (.notOk msg)).observerCalls = [none]) ∧
    (∀ st : AuthState, hasRefreshToken st.tokens = true →
      (refreshToken st .thrown).observerCalls = [none]) ∧
    (∀ (st : AuthState) (raw : TokensRaw) (ur : FetchResult UserRaw),
      st.currentUser = .null → loadUserInfo ur = none →
      (login st (.ok raw) ur).observerCalls = []) ∧
    (∀ (st : AuthState) (init : InitialTokens) (ur : FetchResult UserRaw),
      (loadInitialTokens st init ur).observerCalls = []) := by
  refine ⟨?_, ?_, ?_, ?_, ?_, ?_, ?_⟩
  · intro st raw ur u hcu hU
    simp [login, hcu, hU]
  · intro st h
    rcases st with ⟨tk, cu⟩
    cases cu <;> simp_all [logout]
  · intro st raw h
    simp [refreshToken, h]
  · intro st msg h
    simp [refreshToken, h]
  · intro st h
    simp [refreshToken, h]
  · intro st raw ur hcu hU
    simp [login, hcu, hU]
  · intro st init ur
    rcases init with _ | t | _
    · rfl
    · rcases t with _ | t
      · rfl
      · cases hU : loadUserInfo ur <;> simp [loadInitialTokens, hU]
    · rfl

/-- Witness for `observer_calls_amended` at concrete inputs. -/
theorem observer_calls_amended_witness :
    (login clearAuthState (.ok sampleTokensRaw) (.ok sampleUserRaw)).observerCalls
      = [some (toTokensData sampleTokensRaw)] :=
  observer_calls_amended.1 clearAuthState sampleTokensRaw (.ok sampleUserRaw)
    sampleUser rfl rfl

/-! ## C5: refresh scheduling deadline -/

/-- Claim C5 counterexample: with the access token expiring at instant
1000 and now = 500, the refresh deadline `refreshAt = 1000 −
REFRESH_THRESHOLD_MS` lies in the past (`refreshAt ≤ now`), yet the
scheduler does not execute the refresh immediately — it arms a timer with
delay 0 (the immediate branch fires only when the expiry itself has
passed, `timeUntilExpiry ≤ 0`). -/
theorem schedule_immediate_counterexample :
    1000 - REFRESH_THRESHOLD_MS ≤ (500 : Int) ∧
    scheduleTokenRefresh parseAt1000 (.defined sampleTokens) 500 (some 7)
      = (some 0, .armTimer 0) ∧
    (scheduleTokenRefresh parseAt1000 (.defined sampleTokens) 500 (some 7)).2
      ≠ .immediateRefresh :=
  ⟨by decide, by decide, by decide⟩

/-- Claim C5 (corrected form): whenever tokens with a parseable expiry are
set, the scheduler's outcome is independent of any previously armed timer
(the previous timer is unconditionally cancelled first, so at most one
pending refresh timer exists); the refresh executes immediately exactly
when the expiry has already passed (`accessExpiresAt ≤ now`); and when the
expiry is still in the future and within the maximum delay, a timer is
armed with delay `max 0 (refreshAt − now)` for
`refreshAt = accessExpiresAt − REFRESH_THRESHOLD_MS` — in particular, when
`refreshAt ≤ now < accessExpiresAt` the armed delay is 0, a scheduled
zero-delay timer rather than an immediate execution. -/
theorem schedule_deadline_amended :
    ∀ (d : String → Option Int) (t : TokensData) (now : Int) (prev : Option Int) (e : Int),
      d t.accessExpiresAt = some e → t.accessExpiresAt ≠ "" →
      (scheduleTokenRefresh d (.defined t) now prev
        = scheduleTokenRefresh d (.defined t) now none) ∧
      (e ≤ now →
        scheduleTokenRefresh d (.defined t) now prev = (none, .immediateRefresh)) ∧
      (now < e → e - now < MAX_TIMEOUT →
        scheduleTokenRefresh d (.defined t) now prev
          = (some (max 0 (e - REFRESH_THRESHOLD_MS - now)),
             .armTimer (max 0 (e - REFRESH_THRESHOLD_MS - now)))) := by
  intro d t now prev e hp hne
  refine ⟨rfl, ?_, ?_⟩
  · intro hle
    simp only [scheduleTokenRefresh, if_neg hne, hp]
    rw [if_pos (by omega : e - now ≤ 0)]
  · intro h1 h2
    simp only [scheduleTokenRefresh, if_neg hne, hp]
    rw [if_neg (by omega : ¬ e - now ≤ 0), if_pos h2]
    have harm : e - now - REFRESH_THRESHOLD_MS = e - REFRESH_THRESHOLD_MS - now := by omega
    rw [harm]

/-- Witness for `schedule_deadline_amended` at concrete inputs. -/
theorem schedule_deadline_amended_witness :
    parseAt1000 sampleTokens.accessExpiresAt = some 1000 ∧
    sampleTokens.accessExpiresAt ≠ "" ∧
    scheduleTokenRefresh parseAt1000 (.defined sampleTokens) 2000 (some 3)
      = (none, .immediateRefresh) :=
  ⟨rfl, by decide,
    (schedule_deadline_amended parseAt1000 sampleTokens 2000 (some 3) 1000
      rfl (by decide)).2.1 (by decide)⟩

/-! ## C7: far-future overflow guard -/

/-- Claim C7 (confirmed): when the time until the refresh deadline
`(accessExpiresAt − REFRESH_THRESHOLD_MS) − now` exceeds the maximum
representable delay `MAX_TIMEOUT = 2147483647` ms, the scheduler arms no
timer and triggers no immediate refresh. -/
theorem far_future_no_timer :
    ∀ (d : String → Option Int) (t : TokensData) (now : Int) (prev : Option Int) (e : Int),
      d t.accessExpiresAt = some e →
      MAX_TIMEOUT < e - REFRESH_THRESHOLD_MS - now →
      scheduleTokenRefresh d (.defined t) now prev = (none, .noAction) := by
  intro d t now prev e hp hfar
  by_cases hne : t.accessExpiresAt = ""
  · simp only [scheduleTokenRefresh, if_pos hne]
  · simp only [scheduleTokenRefresh, if_neg hne, hp]
    have h0 : ¬ e - now ≤ 0 := by
      simp only [MAX_TIMEOUT, REFRESH_THRESHOLD_MS] at hfar; omega
    have h1 : ¬ e - now < MAX_TIMEOUT := by
      simp only [MAX_TIMEOUT, REFRESH_THRESHOLD_MS] at hfar ⊢; omega
    rw [if_neg h0, if_neg h1]

/-- Witness for `far_future_no_timer` at concrete inputs. -/
theorem far_future_no_timer_witness :
    parseFarFuture sampleTokens.accessExpiresAt = some 2147783657 ∧
    MAX_TIMEOUT < 2147783657 - REFRESH_THRESHOLD_MS - 0 ∧
    scheduleTokenRefresh parseFarFuture (.defined sampleTokens) 0 (some 5)
      = (none, .noAction) :=
  ⟨rfl, by decide,
    far_future_no_timer parseFarFuture sampleTokens 0 (some 5) 2147783657 rfl (by decide)⟩

/-! ## C8: unparseable expiry timestamps -/

/-- Claim C8 (confirmed): when `accessExpiresAt` does not parse to a
timestamp (the host parser yields `NaN`, modelled as `none`), the
scheduler treats the token as having no deadline — no timer is armed and
no immediate refresh is triggered.  (An empty `accessExpiresAt` string is
caught even earlier by the `!tokens?.accessExpiresAt` guard, with the same
outcome.) -/
theorem unparseable_expiry_no_deadline :
    ∀ (d : String → Option Int) (t : TokensData) (now : Int) (prev : Option Int),
      d t.accessExpiresAt = none →
      scheduleTokenRefresh d (.defined t) now prev = (none, .noAction) := by
  intro d t now prev hp
  by_cases hne : t.accessExpiresAt = ""
  · simp only [scheduleTokenRefresh, if_pos hne]
  · simp only [scheduleTokenRefresh, if_neg hne, hp]

/-- Witness for `unparseable_expiry_no_deadline` at concrete inputs. -/
theorem unparseable_expiry_no_deadline_witness :
    parseNaN sampleTokens.accessExpiresAt = none ∧
    scheduleTokenRefresh parseNaN (.defined sampleTokens) 500 (some 9)
      = (none, .noAction) :=
  ⟨rfl, unparseable_expiry_no_deadline parseNaN sampleTokens 500 (some 9) rfl⟩

/-! ## C6: refresh failure is terminal -/

/-- Claim C6 (confirmed): whenever the refresh backend call fails — a
non-ok response or a thrown error — the session state is forced to
`Unauthenticated` (both cells `null`), the observer is invoked exactly
once with `null`, the call returns `false`, and because the resulting
`tokens` cell is `null` the tokens-change effect does not invoke the
scheduler, so no further refresh timer is armed and the refresh is never
retried. -/
theorem refresh_failure_terminal :
    ∀ (st : AuthState) (resp : FetchResult TokensRaw),
      hasRefreshToken st.tokens = true →
      FetchResult.isOk resp = false →
      refreshToken st resp
        = { state := clearAuthState, observerCalls := [none],
            backendCalled := true, returned := false } ∧
      tokensEffectSchedules clearAuthState.tokens = false := by
  intro st resp ht hno
  cases resp with
  | ok raw => simp [FetchResult.isOk] at hno
  | notOk msg => exact ⟨by simp [refreshToken, ht], rfl⟩
  | thrown => exact ⟨by simp [refreshToken, ht], rfl⟩

/-- Witness for `refresh_failure_terminal` at concrete inputs. -/
theorem refresh_failure_terminal_witness :
    hasRefreshToken sampleAuthedState.tokens = true ∧
    FetchResult.isOk (FetchResult.notOk (α := TokensRaw) "expired") = false ∧
    refreshToken sampleAuthedState (.notOk "expired")
      = { state := clearAuthState, observerCalls := [none],
          backendCalled := true, returned := false } :=
  ⟨by decide, rfl,
    (refresh_failure_terminal sampleAuthedState (.notOk "expired") (by decide) rfl).1⟩

/-! ## C9: logout idempotence -/

/-- Claim C9 (confirmed): after a successful `logout()` from an
`Authenticated` state, a second `logout()` fails with
`NotAuthenticatedError`, does not alter the state (tokens and user remain
`null` exactly as the first call left them) and performs no observer
call. -/
theorem logout_idempotence :
    ∀ (st : AuthState) (u : UserData), st.currentUser = .defined u →
      (logout st).result = .ok () ∧
      (logout st).state = clearAuthState ∧
      (logout (logout st).state).result = .error .notLoggedIn ∧
      (logout (logout st).state).state = (logout st).state ∧
      (logout (logout st).state).observerCalls = [] := by
  intro st u h
  simp [logout, h, clearAuthState]

/-- Witness for `logout_idempotence` at concrete inputs. -/
theorem logout_idempotence_witness :
    sampleAuthedState.currentUser = .defined sampleUser ∧
    (logout (logout sampleAuthedState).state).result = .error .notLoggedIn :=
  ⟨rfl, (logout_idempotence sampleAuthedState sampleUser rfl).2.2.1⟩

/-! ## C10: refresh without a refresh token is a no-op -/

/-- Claim C10 (confirmed): when no refresh token is held — tokens
`undefined`, `null`, or with an empty `refresh` field — `refreshToken`
returns `false` immediately without calling the backend, without changing
tokens or current user, and without invoking the observer. -/
theorem refresh_no_token_frame :
    ∀ (st : AuthState) (resp : FetchResult TokensRaw),
      hasRefreshToken st.tokens = false →
      refreshToken st resp
        = { state := st, observerCalls := [], backendCalled := false, returned := false } := by
  intro st resp ht
  simp [refreshToken, ht]

/-- Witness for `refresh_no_token_frame` at concrete inputs. -/
theorem refresh_no_token_frame_witness :
    hasRefreshToken authInitialState.tokens = false ∧
    refreshToken authInitialState (.ok sampleTokensRaw)
      = { state := authInitialState, observerCalls := [],
          backendCalled := false, returned := false } :=
  ⟨rfl, refresh_no_token_frame authInitialState (.ok sampleTokensRaw) rfl⟩
